import Mathlib

/-!
Verification development for the PM2.5 prediction dashboard (src/app.py).

The program is a thin reactive layer: a pandas table of per-ward, per-day
records is loaded once; `update_graph(selected_city, selected_day)` filters
the table by a boolean mask, renders a plotly choropleth via
`generate_plot`, renders a matplotlib colorbar legend as a base64 PNG data
URI, and formats the selected date.

We embed the table as a list of (index label, row) pairs — mirroring the
pandas index — and the three operations as pure Lean functions over ℚ.
Floating-point NaN (the mean of an empty series) is represented by `none`
in an `Option`-valued map center.
-/

namespace PMDash

/-- A calendar date (no time component), as parsed by
`pd.to_datetime(df['Date'], format='%Y-%m-%d')` in app.py line 16. -/
structure CalDate where
  year : Nat
  month : Nat
  day : Nat
deriving DecidableEq, Repr

/-- Gregorian leap-year test, as used by pandas/Python `datetime`. -/
def isLeap (y : Nat) : Bool :=
  (y % 4 == 0 && y % 100 != 0) || y % 400 == 0

/-- Month lengths January..December for a (non-)leap year. -/
def monthLengths (leap : Bool) : List Nat :=
  [31, if leap then 29 else 28, 31, 30, 31, 30, 31, 31, 30, 31, 30, 31]

/-- Day-of-year of a calendar date (1-indexed), the semantics of pandas
`Series.dt.dayofyear` used in the filter mask at app.py line 125. -/
def dayOfYear (d : CalDate) : Nat :=
  ((monthLengths (isLeap d.year)).take (d.month - 1)).sum + d.day

/-- A ward polygon in geographic coordinates: the ring of (lon, lat)
vertices parsed from the WKT `geometry` column (app.py line 19). We model
the single-ring polygon case; the ring is stored without the closing
repetition of the first vertex. -/
structure Geometry where
  ring : List (ℚ × ℚ)
deriving DecidableEq, Repr

/-- Shapely polygon centroid via the shoelace formula: returns (x, y).
`2A = Σ (xᵢ·yᵢ₊₁ − xᵢ₊₁·yᵢ)` over cyclically adjacent vertex pairs and
`Cx = Σ (xᵢ+xᵢ₊₁)(xᵢ·yᵢ₊₁−xᵢ₊₁·yᵢ) / (3·2A)`; rational division by zero
(degenerate ring) yields 0, a case the data-model invariant excludes. -/
def centroidOf (g : Geometry) : ℚ × ℚ :=
  let pairs := g.ring.zip (g.ring.rotate 1)
  let a2 := (pairs.map (fun pq => pq.1.1 * pq.2.2 - pq.2.1 * pq.1.2)).sum
  let cx := (pairs.map (fun pq => (pq.1.1 + pq.2.1) * (pq.1.1 * pq.2.2 - pq.2.1 * pq.1.2))).sum
  let cy := (pairs.map (fun pq => (pq.1.2 + pq.2.2) * (pq.1.1 * pq.2.2 - pq.2.1 * pq.1.2))).sum
  (cx / (3 * a2), cy / (3 * a2))

/-- One row of the loaded table: columns `City, WARD, Area, Date, PM2.5,
geometry` (the dotted column name `PM2.5` becomes the field `PM25`). -/
structure Row where
  City : String
  WARD : String
  Area : String
  Date : CalDate
  PM25 : ℚ
  geometry : Geometry
deriving DecidableEq, Repr

/-- The in-memory table `gdf`: rows paired with their pandas index labels. -/
abbrev Table : Type := List (Nat × Row)

/-- Loading assigns the default `RangeIndex` 0,1,2,… as the index labels
(`pd.read_pickle` at app.py line 15 followed by no re-indexing). -/
def loadTable (rows : List Row) : Table := rows.enum

/-- The boolean mask of app.py line 125:
`(gdf['City'] == selected_city) & (gdf['Date'].dt.dayofyear == selected_day)`. -/
def rowMask (selected_city : String) (selected_day : Nat) (p : Nat × Row) : Bool :=
  p.2.City == selected_city && dayOfYear p.2.Date == selected_day

/-- `filtered_data = gdf[mask]`: boolean-mask selection keeps the matching
rows in table order together with their original index labels. -/
def filtered_data (gdf : Table) (selected_city : String) (selected_day : Nat) : Table :=
  List.filter (rowMask selected_city selected_day) gdf

/-- The mean of a list of rationals (pandas `Series.mean` on a nonempty
series; the empty case, NaN in pandas, is guarded by the caller). -/
def meanQ (l : List ℚ) : ℚ := l.sum / l.length

/-- The plotly figure produced by `generate_plot`, restricted to the
attributes app.py lines 26-47 set. `center` is `(lat, lon)`; `none`
models the NaN mean of an empty series. `margin` is `(r, t, l, b)`. -/
structure Fig where
  geojson : List Geometry
  locations : List Nat
  colorValues : List ℚ
  colorScale : String
  colorMidpoint : ℚ
  rangeColor : ℚ × ℚ
  mapboxStyle : String
  zoom : ℚ
  center : Option (ℚ × ℚ)
  opacity : ℚ
  customdata : List (String × String × ℚ)
  hovertemplate : String
  showscale : Bool
  margin : ℚ × ℚ × ℚ × ℚ
deriving DecidableEq, Repr

/-- The hovertemplate string of app.py line 43. -/
def hoverTemplateStr : String :=
  "<b>Ward:</b> %\x7bcustomdata[0]\x7d<br><b>Area:</b> %\x7bcustomdata[1]\x7d<br><b>PM2.5:</b> %\x7bcustomdata[2]:.2f\x7d"

/-- `generate_plot` (app.py lines 25-49): one feature per row of the
filtered table, located by the table's index labels, colored by `PM2.5`
on the fixed jet scale, centered on the mean of the polygon centroids,
with the map-side color scale hidden. -/
def generate_plot (filtered_gdf : Table) : Fig :=
  { geojson := filtered_gdf.map (fun p => p.2.geometry)
    locations := filtered_gdf.map Prod.fst
    colorValues := filtered_gdf.map (fun p => p.2.PM25)
    colorScale := "jet"
    colorMidpoint := 70
    rangeColor := (20, 120)
    mapboxStyle := "open-street-map"
    zoom := 53 / 5
    center :=
      if filtered_gdf.isEmpty then none
      else
        some (meanQ (filtered_gdf.map (fun p => (centroidOf p.2.geometry).2)),
          meanQ (filtered_gdf.map (fun p => (centroidOf p.2.geometry).1)))
    opacity := 4 / 5
    customdata := filtered_gdf.map (fun p => (p.2.WARD, p.2.Area, p.2.PM25))
    hovertemplate := hoverTemplateStr
    showscale := false
    margin := (5, 5, 10, 0) }

/-- Clamp a value into `[lo, hi]`. -/
def clampQ (lo hi v : ℚ) : ℚ := max lo (min hi v)

/-- The fraction along the "jet" colormap at which a pollutant value is
rendered, per `color_continuous_scale="jet", range_color=[20, 120]`:
plotly clamps the value to the range ends and interpolates linearly over
the range; "warmer" on the jet gradient means a larger fraction. -/
def scalePos (v : ℚ) : ℚ := (clampQ 20 120 v - 20) / (120 - 20)

/-- Zero-padded two-digit rendering of a small natural number. -/
def pad2 (n : Nat) : String := if n < 10 then "0" ++ toString n else toString n

/-- Fixed-point rendering with two decimals, the ":.2f" directive of the
hovertemplate (ties round away from zero). -/
def fmt2 (q : ℚ) : String :=
  let sign := if q < 0 then "-" else ""
  let n : Nat := (⌊|q| * 100 + 1 / 2⌋ : ℤ).toNat
  sign ++ toString (n / 100) ++ "." ++ pad2 (n % 100)

/-- The hover text plotly produces for one polygon: the hovertemplate with
the three `customdata` slots substituted, the pollutant value through the
":.2f" format. -/
def renderHover (cd : String × String × ℚ) : String :=
  "<b>Ward:</b> " ++ cd.1 ++ "<br><b>Area:</b> " ++ cd.2.1 ++ "<br><b>PM2.5:</b> " ++
    fmt2 cd.2.2

/-- Parameters of the matplotlib colorbar built at app.py lines 129-137. -/
structure ColorbarSpec where
  cmap : String
  vmin : ℚ
  vmax : ℚ
  extend : String
  label : String
  orientation : String
deriving DecidableEq, Repr

/-- The colorbar the callback constructs: jet colormap,
`Normalize(vmin=20, vmax=120)`, `extend='both'`, the literal label string
of the source (mojibake micro sign included), vertical orientation. Every
argument is a constant — none comes from the callback inputs. -/
def legendColorbar : ColorbarSpec :=
  { cmap := "jet", vmin := 20, vmax := 120, extend := "both",
    label := "PM 2.5(Âµg/m3)", orientation := "vertical" }

/-- Code points of a string's characters (the label's two non-ASCII
letters are taken by code point). -/
def strBytes (s : String) : List Nat := s.toList.map Char.toNat

/-- Modelled from the spec: matplotlib `savefig(format='png')` rasterizes
the colorbar figure deterministically; the rasterizer is not part of this
repository, so the PNG payload is modelled as the 8-byte PNG signature
followed by a serialization of exactly the parameters the code passes. -/
def savefigPNG (cb : ColorbarSpec) : List Nat :=
  [137, 80, 78, 71, 13, 10, 26, 10] ++
    strBytes (cb.cmap ++ ";" ++ fmt2 cb.vmin ++ ";" ++ fmt2 cb.vmax ++ ";" ++
      cb.extend ++ ";" ++ cb.label ++ ";" ++ cb.orientation)

/-- The RFC 4648 base64 alphabet. -/
def b64Alphabet : List Char :=
  "ABCDEFGHIJKLMNOPQRSTUVWXYZabcdefghijklmnopqrstuvwxyz0123456789+/".toList

/-- Character for one 6-bit group. -/
def b64Char (n : Nat) : Char := b64Alphabet.getD n 'A'

/-- RFC 4648 base64, 3 bytes → 4 characters with '=' padding: the
semantics of Python's `base64.b64encode`. -/
def b64Chunks : List Nat → List Char
  | [] => []
  | [a] =>
      let w := a * 65536
      [b64Char (w / 262144 % 64), b64Char (w / 4096 % 64), '=', '=']
  | [a, b] =>
      let w := a * 65536 + b * 256
      [b64Char (w / 262144 % 64), b64Char (w / 4096 % 64), b64Char (w / 64 % 64), '=']
  | a :: b :: c :: rest =>
      let w := a * 65536 + b * 256 + c
      b64Char (w / 262144 % 64) :: b64Char (w / 4096 % 64) :: b64Char (w / 64 % 64) ::
        b64Char (w % 64) :: b64Chunks rest

/-- `base64.b64encode(...).decode()` as a string. -/
def b64encode (bs : List Nat) : String := String.mk (b64Chunks bs)

/-- The legend pipeline (app.py lines 129-143) as a function of its scale
parameters: save the colorbar figure as PNG, base64-encode, and wrap as an
inline data URI. -/
def renderLegend (cb : ColorbarSpec) : String :=
  "data:image/png;base64," ++ b64encode (savefigPNG cb)

/-- `colorbar_img_str` of app.py line 143, built from `legendColorbar`
alone. -/
def colorbar_img_str : String := renderLegend legendColorbar

/-- Walk the month-length list with a 0-based day offset, returning the
1-based (month, day) pair; offsets past the listed months run past
December (unreached for slider values 1..365). -/
def mdOfOffset : List Nat → Nat → Nat × Nat
  | [], n => (1, n + 1)
  | len :: rest, n =>
      if n < len then (1, n + 1)
      else
        let md := mdOfOffset rest (n - len)
        (md.1 + 1, md.2)

/-- `datetime.date(2023, 1, 1) + datetime.timedelta(days=selected_day - 1)`
(app.py line 145); for slider values 1..365 the result stays within 2023,
which is not a leap year. -/
def sliderDate (selected_day : Nat) : CalDate :=
  let md := mdOfOffset (monthLengths false) (selected_day - 1)
  ⟨2023, md.1, md.2⟩

/-- `%b`: abbreviated month name. -/
def monthAbbrev (m : Nat) : String :=
  ["Jan", "Feb", "Mar", "Apr", "May", "Jun", "Jul", "Aug", "Sep", "Oct", "Nov",
    "Dec"].getD (m - 1) "???"

/-- `strftime('%b %d, %Y')`: abbreviated month, zero-padded day, comma,
four-digit year. -/
def strfDate (d : CalDate) : String :=
  monthAbbrev d.month ++ " " ++ pad2 d.day ++ ", " ++ toString d.year

/-- The `selected_date` display string of app.py line 145. -/
def selected_date (selected_day : Nat) : String := strfDate (sliderDate selected_day)

/-- The callback body `update_graph` (app.py lines 124-147): filter the
table, build the map figure, the legend data URI, and the date label. The
legend component touches only module constants. -/
def update_graph (gdf : Table) (selected_city : String) (selected_day : Nat) :
    Fig × String × String :=
  let filtered := filtered_data gdf selected_city selected_day
  (generate_plot filtered, colorbar_img_str, selected_date selected_day)

/-- A sample ward polygon (the unit square) for concrete instantiations. -/
def sampleGeometry : Geometry := ⟨[(0, 0), (1, 0), (1, 1), (0, 1)]⟩

/-- A sample table row for concrete instantiations. -/
def sampleRow : Row :=
  { City := "Kolkata", WARD := "W1", Area := "Salt Lake",
    Date := ⟨2023, 2, 14⟩, PM25 := 321 / 4, geometry := sampleGeometry }

/-- A second sample row in the other city, for selective-filter witnesses. -/
def sampleRow2 : Row :=
  { City := "Howrah", WARD := "W2", Area := "Shibpur",
    Date := ⟨2023, 1, 1⟩, PM25 := 55, geometry := sampleGeometry }

end PMDash

namespace PMDash

/-- C1: membership in the filtered subset is exactly the conjunction of the
city equality and the day-of-year equality, over the loaded table. -/
theorem filtered_data_mem_iff (gdf : Table) (city : String) (day : Nat) (p : Nat × Row) :
    p ∈ filtered_data gdf city day ↔
      p ∈ gdf ∧ (p.2.City = city ∧ dayOfYear p.2.Date = day) := by
  unfold filtered_data rowMask
  constructor
  · intro h
    have h' := List.of_mem_filter h
    refine ⟨List.mem_of_mem_filter h, ?_⟩
    simp only [Bool.and_eq_true, beq_iff_eq] at h'
    exact h'
  · intro ⟨hmem, hcity, hday⟩
    apply List.mem_filter_of_mem hmem
    simp only [Bool.and_eq_true, beq_iff_eq]
    exact ⟨hcity, hday⟩

/-- C2: when no row of the table satisfies the selection predicate, the
filter returns the empty subset (a plain function value, not an error),
and filtering equal inputs always yields the same subset (the function is
pure: it has no state to change). -/
theorem filtered_data_empty_of_no_match (gdf : Table) (city : String) (day : Nat)
    (h : ∀ p ∈ gdf, ¬(p.2.City = city ∧ dayOfYear p.2.Date = day)) :
    filtered_data gdf city day = [] ∧
      ∀ (g₂ : Table) (c₂ : String) (d₂ : Nat), g₂ = gdf → c₂ = city → d₂ = day →
        filtered_data g₂ c₂ d₂ = filtered_data gdf city day := by
  refine ⟨?_, fun g₂ c₂ d₂ hg hc hd => by rw [hg, hc, hd]⟩
  unfold filtered_data
  rw [List.filter_eq_nil_iff]
  intro p hp
  unfold rowMask
  simp only [Bool.and_eq_true, beq_iff_eq]
  intro hc
  exact h p hp ⟨hc.1, hc.2⟩

/-- C2 witness: a concrete unmatched (city, day) query on a one-row table
returns the empty subset, and repeating it returns the same subset. -/
theorem filtered_data_empty_of_no_match_witness :
    (∀ p ∈ loadTable [sampleRow], ¬(p.2.City = "Paris" ∧ dayOfYear p.2.Date = 366)) ∧
      filtered_data (loadTable [sampleRow]) "Paris" 366 = [] ∧
      filtered_data (loadTable [sampleRow]) "Paris" 366 =
        filtered_data (loadTable [sampleRow]) "Paris" 366 :=
  ⟨by decide, (filtered_data_empty_of_no_match _ _ _ (by decide)).1,
    (filtered_data_empty_of_no_match (loadTable [sampleRow]) "Paris" 366
      (by decide)).2 _ _ _ rfl rfl rfl⟩

/-- C3: rendering the empty subset is total (a plain function into `Fig`)
and yields a figure with no polygons, no locations, no hover rows, and an
undefined (`none`) center. -/
theorem generate_plot_empty :
    (generate_plot []).geojson = [] ∧ (generate_plot []).locations = [] ∧
      (generate_plot []).customdata = [] ∧ (generate_plot []).center = none :=
  ⟨rfl, rfl, rfl, rfl⟩

set_option maxRecDepth 10000

/-- C4: for slider days 1..365 the date helper lands in year 2023 on the
calendar date whose day-of-year equals the slider value (so day 1 is
January 1 and day 365 is December 31), and the display strings are
`"Jan 01, 2023"`, `"Feb 14, 2023"`, `"Dec 31, 2023"` at days 1, 45, 365. -/
theorem selected_date_spec (d : Nat) (h1 : 1 ≤ d) (h2 : d ≤ 365) :
    ((sliderDate d).year = 2023 ∧ dayOfYear (sliderDate d) = d) ∧
      selected_date 1 = "Jan 01, 2023" ∧ selected_date 45 = "Feb 14, 2023" ∧
      selected_date 365 = "Dec 31, 2023" := by
  have key : ∀ i : Fin 366, 1 ≤ i.val →
      (sliderDate i.val).year = 2023 ∧ dayOfYear (sliderDate i.val) = i.val := by
    decide
  exact ⟨key ⟨d, by omega⟩ h1, by decide, by decide, by decide⟩

/-- C4 witness: the property instantiated at slider day 45. -/
theorem selected_date_spec_witness :
    (1 ≤ 45 ∧ 45 ≤ 365) ∧ (sliderDate 45).year = 2023 ∧
      dayOfYear (sliderDate 45) = 45 ∧ selected_date 45 = "Feb 14, 2023" := by
  have h := selected_date_spec 45 (by decide) (by decide)
  exact ⟨⟨by decide, by decide⟩, h.1.1, h.1.2, h.2.2.1⟩

/-- C5: the figure fixes the jet scale with display range [20, 120] and
midpoint 70; values at or below 20 sit at scale position 0 and values at
or above 120 at position 1 (so 150 and 1000 get the same color), and the
position is strictly increasing on [20, 120]. -/
theorem color_mapping_spec :
    (∀ s : Table, (generate_plot s).colorScale = "jet" ∧
        (generate_plot s).rangeColor = (20, 120) ∧
        (generate_plot s).colorMidpoint = 70) ∧
      (∀ v : ℚ, v ≤ 20 → scalePos v = 0) ∧
      (∀ v : ℚ, 120 ≤ v → scalePos v = 1) ∧
      scalePos 150 = scalePos 1000 ∧
      (∀ v₁ v₂ : ℚ, 20 ≤ v₁ → v₁ < v₂ → v₂ ≤ 120 → scalePos v₁ < scalePos v₂) := by
  refine ⟨fun s => ⟨rfl, rfl, rfl⟩, ?_, ?_, by norm_num [scalePos, clampQ], ?_⟩
  · intro v hv
    unfold scalePos clampQ
    rw [min_eq_right (by linarith : v ≤ 120), max_eq_left hv]
    norm_num
  · intro v hv
    unfold scalePos clampQ
    rw [min_eq_left hv, max_eq_right (by norm_num : (20 : ℚ) ≤ 120)]
    norm_num
  · intro v₁ v₂ hl hlt hr
    unfold scalePos clampQ
    rw [min_eq_right (by linarith : v₁ ≤ 120), max_eq_right hl,
      min_eq_right hr, max_eq_right (by linarith : (20 : ℚ) ≤ v₂),
      div_lt_div_iff₀ (by norm_num) (by norm_num)]
    linarith

/-- C5 witness: boundary clamping at 10 and 130, and strict monotonicity
between 30 and 40. -/
theorem color_mapping_spec_witness :
    ((10 : ℚ) ≤ 20 ∧ scalePos 10 = 0) ∧ ((120 : ℚ) ≤ 130 ∧ scalePos 130 = 1) ∧
      ((20 : ℚ) ≤ 30 ∧ (30 : ℚ) < 40 ∧ (40 : ℚ) ≤ 120 ∧ scalePos 30 < scalePos 40) :=
  ⟨⟨by norm_num, color_mapping_spec.2.1 10 (by norm_num)⟩,
    ⟨by norm_num, color_mapping_spec.2.2.1 130 (by norm_num)⟩,
    by norm_num, by norm_num, by norm_num,
    color_mapping_spec.2.2.2.2 30 40 (by norm_num) (by norm_num) (by norm_num)⟩

/-- C6: the legend data URI the callback emits is the same for every table
and every (city, day) selection, and rendering the legend from equal scale
parameters yields identical output. -/
theorem legend_independent :
    (∀ (t₁ t₂ : Table) (c₁ c₂ : String) (d₁ d₂ : Nat),
        (update_graph t₁ c₁ d₁).2.1 = (update_graph t₂ c₂ d₂).2.1) ∧
      (∀ p q : ColorbarSpec, p = q → renderLegend p = renderLegend q) :=
  ⟨fun _ _ _ _ _ _ => rfl, fun _ _ h => by rw [h]⟩

/-- C6 witness: two concrete interactions with different tables, cities and
days share the legend string, and re-rendering from the same parameters
agrees. -/
theorem legend_independent_witness :
    (update_graph [] "Howrah" 1).2.1 = (update_graph [(0, sampleRow)] "Kolkata" 45).2.1 ∧
      legendColorbar = legendColorbar ∧
      renderLegend legendColorbar = renderLegend legendColorbar :=
  ⟨legend_independent.1 [] [(0, sampleRow)] "Howrah" "Kolkata" 1 45, rfl,
    legend_independent.2 legendColorbar legendColorbar rfl⟩

/-- C7: every interaction emits the legend as a self-contained inline data
URI — base64 of PNG bytes — for a vertical colorbar with extend-both
arrows, labeled with the quantity name and unit. -/
theorem legend_payload_spec (t : Table) (c : String) (d : Nat) :
    (update_graph t c d).2.1 =
        "data:image/png;base64," ++ b64encode (savefigPNG legendColorbar) ∧
      legendColorbar.orientation = "vertical" ∧
      legendColorbar.extend = "both" ∧
      legendColorbar.label = "PM 2.5(Âµg/m3)" ∧
      (savefigPNG legendColorbar).take 8 = [137, 80, 78, 71, 13, 10, 26, 10] :=
  ⟨rfl, rfl, rfl, rfl, by decide⟩

/-- C8: for a nonempty subset, one polygon is drawn per record, located by
the record's index label in subset order, and the hover data at each
position carries that record's ward, area, and pollutant value rendered to
two decimals. -/
theorem render_per_record (s : Table) (h : s ≠ []) :
    (generate_plot s).geojson.length = s.length ∧
      (generate_plot s).locations = s.map Prod.fst ∧
      (∀ i : Nat, (generate_plot s).customdata[i]? =
        (s[i]?).map fun p => (p.2.WARD, p.2.Area, p.2.PM25)) ∧
      (generate_plot s).hovertemplate = hoverTemplateStr ∧
      (∀ (i : Nat) (p : Nat × Row), s[i]? = some p →
        ((generate_plot s).customdata[i]?).map renderHover =
          some ("<b>Ward:</b> " ++ p.2.WARD ++ "<br><b>Area:</b> " ++ p.2.Area ++
            "<br><b>PM2.5:</b> " ++ fmt2 p.2.PM25)) := by
  refine ⟨by simp [generate_plot], rfl, ?_, rfl, ?_⟩
  · intro i
    unfold generate_plot
    simp [List.getElem?_map]
  · intro i p hp
    unfold generate_plot
    simp only [List.getElem?_map, hp, Option.map_some']
    rfl

/-- C8 witness: a one-row subset draws one polygon at location 0 whose
hover text shows the sample row's ward, area, and 80.25. -/
theorem render_per_record_witness :
    ([(0, sampleRow)] : Table) ≠ [] ∧
      (generate_plot [(0, sampleRow)]).locations = [0] ∧
      ((generate_plot [(0, sampleRow)]).customdata[0]?).map renderHover =
        some "<b>Ward:</b> W1<br><b>Area:</b> Salt Lake<br><b>PM2.5:</b> 80.25" := by
  have h := render_per_record [(0, sampleRow)] (by decide)
  refine ⟨by decide, by simpa using h.2.1, ?_⟩
  rw [h.2.2.2.2 0 (0, sampleRow) rfl]
  have habs : |(321 / 4 : ℚ)| = 321 / 4 := abs_of_nonneg (by norm_num)
  have hfl : (⌊|(321 / 4 : ℚ)| * 100 + 1 / 2⌋ : ℤ) = 8025 := by
    rw [habs]
    norm_num
  simp only [sampleRow, fmt2, hfl]
  rw [if_neg (by norm_num : ¬(321 / 4 : ℚ) < 0)]
  rfl

/-- C9: for a nonempty subset the figure uses the open-street-map base tile
style, zoom 10.6, center the mean of the subset's polygon centroids
(latitude and longitude componentwise, recomputed from the subset), hides
the on-map color scale, and keeps near-zero margins. -/
theorem map_framing_spec (s : Table) (h : s ≠ []) :
    (generate_plot s).mapboxStyle = "open-street-map" ∧
      (generate_plot s).zoom = 53 / 5 ∧
      (generate_plot s).center =
        some (meanQ (s.map fun p => (centroidOf p.2.geometry).2),
          meanQ (s.map fun p => (centroidOf p.2.geometry).1)) ∧
      (generate_plot s).showscale = false ∧
      (generate_plot s).margin = (5, 5, 10, 0) := by
  refine ⟨rfl, rfl, ?_, rfl, rfl⟩
  unfold generate_plot
  simp [List.isEmpty_iff, h]

/-- C9 witness: the one-row subset over the unit square centers the map at
its centroid (1/2, 1/2). -/
theorem map_framing_spec_witness :
    ([(0, sampleRow)] : Table) ≠ [] ∧
      (generate_plot [(0, sampleRow)]).center = some (1 / 2, 1 / 2) ∧
      (generate_plot [(0, sampleRow)]).zoom = 53 / 5 := by
  have h := map_framing_spec [(0, sampleRow)] (by decide)
  refine ⟨by decide, ?_, h.2.1⟩
  rw [h.2.2.1]
  have hc : centroidOf sampleGeometry = (1 / 2, 1 / 2) := by
    simp only [centroidOf, sampleGeometry, List.rotate]
    norm_num
  norm_num [sampleRow, hc, meanQ]

/-- C10: filtering a loaded table keeps the surviving rows in their
original relative order with their original index labels (a sublist of the
loaded table, nothing renumbered), those labels are exactly the locations
handed to the map renderer, and each label still looks up its own row in
the source list. -/
theorem filter_preserves_index (rows : List Row) (c : String) (d : Nat) :
    List.Sublist (filtered_data (loadTable rows) c d) (loadTable rows) ∧
      (generate_plot (filtered_data (loadTable rows) c d)).locations =
        (filtered_data (loadTable rows) c d).map Prod.fst ∧
      (∀ p ∈ filtered_data (loadTable rows) c d, rows[p.1]? = some p.2) := by
  refine ⟨List.filter_sublist _, rfl, ?_⟩
  intro p hp
  have hmem : p ∈ loadTable rows := List.mem_of_mem_filter hp
  unfold loadTable at hmem
  exact List.mem_enum_iff_getElem?.mp hmem

/-- C10 witness: filtering the loaded two-row table to (Kolkata, day 45)
keeps only the second row under its original label 1, hands exactly that
label to the renderer, and the label still looks up the same row. -/
theorem filter_preserves_index_witness :
    List.Sublist (filtered_data (loadTable [sampleRow2, sampleRow]) "Kolkata" 45)
        (loadTable [sampleRow2, sampleRow]) ∧
      (generate_plot (filtered_data (loadTable [sampleRow2, sampleRow]) "Kolkata" 45)).locations
        = [1] ∧
      [sampleRow2, sampleRow][(1 : Nat)]? = some sampleRow := by
  have h := filter_preserves_index [sampleRow2, sampleRow] "Kolkata" 45
  have hf : filtered_data (loadTable [sampleRow2, sampleRow]) "Kolkata" 45 =
      [(1, sampleRow)] := rfl
  refine ⟨h.1, ?_, ?_⟩
  · rw [h.2.1, hf]
    rfl
  · exact h.2.2 (1, sampleRow) (by rw [hf]; exact List.mem_singleton.mpr rfl)

end PMDash
